import Mathlib

/-!
Verification of the gershwin-workspace UI-test client layer
(`Tools/uitest/python/uitest.py`, `modal_handler.py`, `user_input.py`).

Python functions are shallowly embedded as Lean functions. Effects that the
claims do not depend on (spawning processes, sending X11 events, sleeping,
printing) are not modelled; instead, the values the code observes from the
environment (the spawn outcome, the focused window returned by xdotool, the
parsed JSON state) are passed as explicit arguments, and each function is
the source function of those observations. Python dictionaries with
possibly-absent keys are modelled with `Option` fields, mirroring each
`dict.get(key)` / `dict.get(key, default)` in the source.
-/

namespace GWorkspace

/-- Helper for Python string tests on lists of characters:
`charsStart needle hay` is `needle` being an initial segment of `hay`. -/
def charsStart : List Char → List Char → Bool
  | [], _ => true
  | _ :: _, [] => false
  | a :: as, b :: bs => a == b && charsStart as bs

/-- Python substring membership `needle in hay` (contiguous occurrence). -/
def charsContain (needle : List Char) : List Char → Bool
  | [] => charsStart needle []
  | b :: bs => charsStart needle (b :: bs) || charsContain needle bs

/-- Python `needle in hay` for strings. -/
def strContainsSub (hay needle : String) : Bool :=
  charsContain needle.data hay.data

/-- Python `s.lower()` (modelled characterwise; the strings the code
lowercases are ASCII window titles, class hints and keywords). -/
def strLower (s : String) : String := String.mk (s.data.map Char.toLower)

/-- Python `s.strip()`: remove leading and trailing whitespace. -/
def pyStrip (s : String) : String :=
  String.mk (((s.data.dropWhile Char.isWhitespace).reverse.dropWhile Char.isWhitespace).reverse)

/-- Python `s.startswith(pre)`. -/
def pyStartsWith (s pre : String) : Bool := charsStart pre.data s.data

/-- Python `s.split(sep)` for the single-character separator newline. -/
def pySplitLines (s : String) : List String := (s.data.splitOn '\n').map String.mk

/-- Python truthiness of an optional string argument (`if x:`): false for
`None` and for the empty string, true otherwise. -/
def pyTruthy : Option String → Bool
  | none => false
  | some s => !(s == "")

namespace Uitest

/-! ## Command Proxy (`WorkspaceTestClient._run_command`, uitest.py lines 133-166) -/

/-- A Python exception value as relevant to `_run_command`:
`workspaceNotRunning` is `WorkspaceNotRunningError`, `commandFailed` is
`CommandFailedError`, `timeoutExpired` is `subprocess.TimeoutExpired`, and
`otherError` stands for any other exception raised by `subprocess.run`
(e.g. `FileNotFoundError`), carrying its `str(e)` message. -/
inductive PyExn where
  | workspaceNotRunning (msg : String)
  | commandFailed (msg : String)
  | timeoutExpired
  | otherError (msg : String)
  deriving DecidableEq

/-- Python `str(e)` for the exceptions above (`TimeoutExpired` is rewrapped
before its message is ever used, so its text is irrelevant). -/
def PyExn.message : PyExn → String
  | .workspaceNotRunning m => m
  | .commandFailed m => m
  | .timeoutExpired => "timeout"
  | .otherError m => m

/-- Outcome of the `subprocess.run` call inside `_run_command`: the process
timed out, could not be spawned (raising an exception with message `msg`),
or completed with captured stdout, stderr and exit code. -/
inductive SpawnOutcome where
  | timeout
  | spawnError (msg : String)
  | completed (stdout stderr : String) (exitCode : Int)
  deriving DecidableEq

/-- The message of the `WorkspaceNotRunningError` raised at uitest.py:156
(two adjacent string literals in the source, concatenated). -/
def workspaceNotRunningMessage : String :=
  "Workspace is not running or not responding. Start Workspace with: Workspace -d"

/-- The body of the `try:` block of `_run_command` (uitest.py lines 146-161):
runs the subprocess, checks stderr for the sentinel `"Cannot contact
Workspace"` and raises `WorkspaceNotRunningError` on a hit, else returns the
`(stdout, stderr, returncode)` triple. An `.error` value is an exception
propagating out of the `try:` suite into the handlers. -/
def run_command_try (o : SpawnOutcome) : Except PyExn (String × String × Int) :=
  match o with
  | .timeout => .error .timeoutExpired
  | .spawnError m => .error (.otherError m)
  | .completed out err code =>
      if strContainsSub err "Cannot contact Workspace" then
        .error (.workspaceNotRunning workspaceNotRunningMessage)
      else
        .ok (out, err, code)

/-- `_run_command` with its exception handlers (uitest.py lines 163-166):
`except subprocess.TimeoutExpired` rewraps as
`CommandFailedError("uitest command timed out")`; the following
`except Exception as e` catches every other exception escaping the `try:`
suite - including the `WorkspaceNotRunningError` raised at line 156 - and
rewraps it as `CommandFailedError(f"Failed to run uitest: " + str(e))`. -/
def run_command (o : SpawnOutcome) : Except PyExn (String × String × Int) :=
  match run_command_try o with
  | .ok v => .ok v
  | .error .timeoutExpired => .error (.commandFailed "uitest command timed out")
  | .error e => .error (.commandFailed ("Failed to run uitest: " ++ e.message))

/-- Classifier: is this result an escaping `WorkspaceNotRunningError`? -/
def isWorkspaceNotRunningErr : Except PyExn (String × String × Int) → Bool
  | .error (.workspaceNotRunning _) => true
  | _ => false

end Uitest

namespace ModalHandlerM

/-! ## Modal/Focus Guard (`modal_handler.py`)

`get_focused_window` is an xdotool query; each guard function below takes
its result (`Option WindowInfo`, `none` when the query failed) as an
explicit argument and is otherwise the source function. -/

/-- `WindowInfo` dataclass (modal_handler.py lines 22-45). -/
structure WindowInfo where
  window_id : String
  name : String
  x : Int := 0
  y : Int := 0
  width : Int := 0
  height : Int := 0
  wm_class : String := ""
  deriving DecidableEq

/-- `WindowInfo.is_small_dialog` (lines 33-36):
`width > 0 and width < 500 and height < 400`. -/
def WindowInfo.is_small_dialog (w : WindowInfo) : Bool :=
  w.width > 0 && w.width < 500 && w.height < 400

/-- The fixed alert keyword list of `looks_like_alert` (lines 41-42). -/
def alertKeywords : List String :=
  ["alert", "error", "warning", "confirm", "delete", "save", "open", "choose", "panel"]

/-- `WindowInfo.looks_like_alert` (lines 38-45): some keyword occurs in the
lowercased name or the lowercased WM_CLASS. -/
def WindowInfo.looks_like_alert (w : WindowInfo) : Bool :=
  alertKeywords.any (fun kw =>
    strContainsSub (strLower w.name) kw || strContainsSub (strLower w.wm_class) kw)

/-- The known top-level window name allow-list of `is_workspace_window`
(lines 199-203). -/
def workspaceNames : List String :=
  ["Workspace", "Inspector", "Info", "Finder", "Run",
   "Workspace Preferences", "About", "Console", "Recycler",
   "Open With", "Go to Folder"]

/-- `ModalHandler.is_workspace_window` (lines 184-208). -/
def is_workspace_window (w : WindowInfo) : Bool :=
  strContainsSub w.wm_class "GNUstep" || strContainsSub w.wm_class "Workspace" ||
    workspaceNames.any (fun n => strContainsSub w.name n)

/-- `ModalHandler.has_focus_stealer` (lines 210-245), as a function of the
`expected_focus` argument and of the `get_focused_window()` result. The
branch test at line 224 is Python truthiness (`if expected_focus:`), so a
supplied empty title takes the same branch as an omitted one. -/
def has_focus_stealer (expected_focus : Option String)
    (focused : Option WindowInfo) : Bool :=
  match focused with
  | none => false
  | some f =>
    if pyTruthy expected_focus then
      if strContainsSub (strLower f.name) (strLower (expected_focus.getD "")) then false
      else if is_workspace_window f then f.looks_like_alert || f.is_small_dialog
      else true
    else
      if is_workspace_window f then f.looks_like_alert
      else true

/-- The known-safe-panel allow-list of `detect_modal_dialog` (line 270). -/
def known_panels : List String := ["Inspector", "Finder", "Preferences", "Run"]

/-- `ModalHandler.detect_modal_dialog` (lines 247-274), as a function of the
`get_focused_window()` result. -/
def detect_modal_dialog (focused : Option WindowInfo) : Option WindowInfo :=
  match focused with
  | none => none
  | some f =>
    if f.looks_like_alert then some f
    else if f.is_small_dialog && is_workspace_window f &&
        !(known_panels.any (fun p => strContainsSub f.name p)) then some f
    else none

/-- `ModalHandler.dismiss_with_escape` (lines 276-298) as a function of the
initial `get_focused_window()` result and of the focused window observed
after the i-th Escape press: returns true at the first iteration where both
observations exist and the window id changed. -/
def dismiss_with_escape (initial : Option WindowInfo)
    (after : Nat → Option WindowInfo) (max_attempts : Nat) : Bool :=
  (List.range max_attempts).any (fun i =>
    match after i, initial with
    | some nf, some ini => nf.window_id != ini.window_id
    | _, _ => false)

/-- `ModalHandler.click_button_in_dialog` (lines 319-349) as a function of
the `get_focused_window()` result: returns false if there is no focused
window or its width is 0, otherwise moves the mouse, clicks, and returns
true (the button position computed from the frame does not affect the
return value). -/
def click_button_in_dialog (focused : Option WindowInfo) : Bool :=
  match focused with
  | none => false
  | some f => !(f.width == 0)

/-- `ModalHandler.close_window` (lines 351-363): sends the window-close key
combination (alt+w via xdotool, an external effect) and returns True
unconditionally - the focus change is never checked. -/
def close_window : Bool := true

/-- The environment observed during one `dismiss_focus_stealer("auto")`
call: the xdotool focused-window observations each step consumes. -/
structure DismissEnv where
  escInitial : Option WindowInfo
  escAfter : Nat → Option WindowInfo
  clickFocused : Option WindowInfo
  afterClickFocused : Option WindowInfo

/-- `ModalHandler.dismiss_focus_stealer` in `"auto"` mode (lines 375-392):
Escape (2 attempts), then right-edge button click with a
`has_focus_stealer()` re-check, then `close_window()`, in that order; the
first strategy reporting success ends the call with True. -/
def dismiss_focus_stealer_auto (env : DismissEnv) : Bool :=
  if dismiss_with_escape env.escInitial env.escAfter 2 then true
  else if click_button_in_dialog env.clickFocused &&
      !(has_focus_stealer none env.afterClickFocused) then true
  else if close_window then true
  else false

end ModalHandlerM

namespace UserInputM

/-! ## Input Simulator (`user_input.py`)

`UserInput.move_mouse_smoothly` (lines 64-129). The xdotool `mousemove`
calls it performs are modelled as the list of emitted positions; sleeps and
the duration computation (which only feeds `time.sleep`) are not modelled.
The float arithmetic of the bezier evaluation is modelled over `ℚ`, with
Python `int()` as truncation toward zero; `math.sqrt` composed with `int()`
floor is `Nat.sqrt` of the squared distance. The randomly perturbed control
point is an explicit argument, so quantifying over it quantifies over every
outcome of `random.uniform`. -/

/-- Python `int(q)`: truncation toward zero. -/
def pyInt (q : ℚ) : Int := if 0 ≤ q then ⌊q⌋ else ⌈q⌉

/-- The step count of `move_mouse_smoothly` (line 110):
`max(5, min(30, int(distance / 20)))`. -/
def smoothSteps (cx cy tx ty : Int) : Nat :=
  max 5 (min 30 (Nat.sqrt ((tx - cx) * (tx - cx) + (ty - cy) * (ty - cy)).toNat / 20))

/-- The sequence of positions `move_mouse_smoothly` emits through xdotool
`mousemove`, given the starting position `(cx, cy)` read from
`getmouselocation`, the target `(tx, ty)`, and the perturbed bezier control
point `(controlX, controlY)` (lines 89-129): a direct move when the
distance is below 5, otherwise the `steps` quadratic-bezier samples at
`t = i/steps` for `i = 1..steps` followed by the unconditional final
`mousemove(target_x, target_y)` of line 129. -/
def move_mouse_smoothly_moves (cx cy tx ty : Int) (controlX controlY : ℚ) :
    List (Int × Int) :=
  let dx := tx - cx
  let dy := ty - cy
  let distSq := dx * dx + dy * dy
  if distSq < 25 then [(tx, ty)]
  else
    let steps := smoothSteps cx cy tx ty
    ((List.range steps).map (fun (i : ℕ) =>
      let t : ℚ := ((i : ℚ) + 1) / (steps : ℚ)
      let invT : ℚ := 1 - t
      (pyInt (invT * invT * (cx : ℚ) + 2 * invT * t * controlX + t * t * (tx : ℚ)),
       pyInt (invT * invT * (cy : ℚ) + 2 * invT * t * controlY + t * t * (ty : ℚ)))))
    ++ [(tx, ty)]

end UserInputM

namespace Uitest

/-! ## JSON Response Extractor (`WorkspaceTestClient._extract_json`,
uitest.py lines 168-189)

`json.loads` is an external library function; it is passed in as
`parse : String → Option α` (`none` is `json.JSONDecodeError`). The two
`UITestException`s the source raises are the spec's `NoJsonFound` and
`MalformedJson` failure kinds. -/

/-- The two failure kinds of `_extract_json`. -/
inductive ExtractErr where
  | noJsonFound
  | malformedJson
  deriving DecidableEq

/-- The scan of lines 174-177 fused with the join of line 182: the suffix
of the line list starting at the first line whose stripped content starts
with a left brace, or `none` when no such line exists. -/
def json_payload : List String → Option (List String)
  | [] => none
  | l :: rest =>
    if pyStartsWith (pyStrip l) "\x7b" then some (l :: rest) else json_payload rest

/-- `_extract_json` on the split lines of the output: find the payload
suffix, join it with newlines, parse it. -/
def extract_json_lines (parse : String → Option α) (lines : List String) :
    Except ExtractErr α :=
  match json_payload lines with
  | none => .error .noJsonFound
  | some suf =>
    match parse (String.intercalate "\n" suf) with
    | some j => .ok j
    | none => .error .malformedJson

/-- `_extract_json output` (line 170 splits the output on newlines). -/
def extract_json (parse : String → Option α) (output : String) :
    Except ExtractErr α :=
  extract_json_lines parse (pySplitLines output)

/-! ## Menu queries (`get_menu_items`, `is_menu_item_enabled`,
uitest.py lines 1074-1110)

The menu state is the already-parsed JSON of `list-menus`; dictionaries are
modelled with `Option` fields (a key may be absent), `dict.get(k, d)` is
`Option.getD`. Both "not found" failures in the source are
`UITestException`s carrying the messages below; they are the spec's
`NotFound` error kind. -/

/-- A menu item dictionary of the `list-menus` JSON. -/
structure MenuItem where
  title : Option String := none
  enabled : Option Bool := none
  action : Option String := none
  shortcut : Option String := none
  hasSubmenu : Option Bool := none
  separator : Option Bool := none
  deriving DecidableEq

/-- A menu dictionary of the `list-menus` JSON. -/
structure Menu where
  title : Option String := none
  enabled : Option Bool := none
  items : Option (List MenuItem) := none
  deriving DecidableEq

/-- The top-level `list-menus` JSON object. -/
structure MenuState where
  menus : Option (List Menu) := none
  deriving DecidableEq

/-- `UITestException` with its message, as raised by the menu queries. -/
inductive UErr where
  | uitestError (msg : String)
  deriving DecidableEq

/-- `WorkspaceTestClient.get_menu_items` (lines 1074-1091) as a function of
the parsed menu state: the items of the first menu whose title equals
`menu_title`, else the "Menu not found" exception. -/
def get_menu_items (state : MenuState) (menu_title : String) :
    Except UErr (List MenuItem) :=
  match (state.menus.getD []).find? (fun m => m.title == some menu_title) with
  | some m => .ok (m.items.getD [])
  | none => .error (.uitestError ("Menu not found: " ++ menu_title))

/-- `WorkspaceTestClient.is_menu_item_enabled` (lines 1093-1110): the
`enabled` value (default False) of the first item whose title equals
`item_title` among `get_menu_items` of `menu_title`, else the "Menu item
not found" exception; a `get_menu_items` failure propagates. -/
def is_menu_item_enabled (state : MenuState) (menu_title item_title : String) :
    Except UErr Bool :=
  match get_menu_items state menu_title with
  | .error e => .error e
  | .ok items =>
    match items.find? (fun it => it.title == some item_title) with
    | some it => .ok (it.enabled.getD false)
    | none =>
      .error (.uitestError ("Menu item not found: " ++ menu_title ++ " > " ++ item_title))

/-! ## Test Runner (`run_tests`, uitest.py lines 1231-1357)

A test callable is modelled by its outcome. The printing, the best-effort
highlight on `AssertionFailedError` (whose own exceptions the source
swallows with a bare `except: pass`), and the verbose flag do not affect
the results list or the returned exit status and are not modelled. -/

/-- Outcome of calling one test callable: it returned the value `False`
itself (Python `result is False`), returned anything else, raised
`AssertionFailedError`, or raised any other `Exception`. -/
inductive TestOutcome where
  | retFalse
  | retOther
  | assertExn
  | otherExn
  deriving DecidableEq

/-- Whether an outcome is recorded as a pass (`results.append(True)`):
only a returned value other than `False` is. -/
def passes : TestOutcome → Bool
  | .retOther => true
  | _ => false

/-- The `results` list built by the loop of lines 1277-1340: one boolean
per executed test, halting after the first failure when `stop` is set. -/
def run_tests_results (stop : Bool) : List TestOutcome → List Bool
  | [] => []
  | o :: rest =>
    match o with
    | .retOther => true :: run_tests_results stop rest
    | .retFalse => false :: (if stop then [] else run_tests_results stop rest)
    | .assertExn => false :: (if stop then [] else run_tests_results stop rest)
    | .otherExn => false :: (if stop then [] else run_tests_results stop rest)

/-- The exit status of `run_tests` (line 1357): `0 if all(results) else 1`
(and line 1270 returns 0 for an empty test list, which agrees with
`all([])`). -/
def run_tests (stop : Bool) (ts : List TestOutcome) : Nat :=
  if (run_tests_results stop ts).all (fun b => b) then 0 else 1

/-- The tests the loop actually executes: every test up to and including
the first failure when `stop` is set, all of them otherwise. -/
def executedTests (stop : Bool) : List TestOutcome → List TestOutcome
  | [] => []
  | o :: rest =>
    o :: (if passes o then executedTests stop rest
          else if stop then [] else executedTests stop rest)

/-! ## UI State Façade: `window_exists` (uitest.py lines 423-443) and the
element-tree walkers `text_visible` (lines 445-489) and
`count_elements_by_class` (lines 812-843)

`query_ui_state()` runs the bridge command and parses its JSON; its outcome
is passed in explicitly (`none` when it raised - the `except Exception`
of each helper turns that into the "not found" result). A window or
element dictionary is modelled as a `Node`; a `contentView` value (a single
dictionary in the JSON) is represented as a one-element list, an absent key
as the empty list, which the recursive walkers treat identically to the
source (they iterate lists and recurse into dictionaries). -/

/-- A window dictionary as inspected by `window_exists`. -/
structure WindowDict where
  title : Option String := none
  windowTitle : Option String := none
  deriving DecidableEq

/-- The parsed `query --json` object as inspected by `window_exists`. -/
structure UIStateW where
  windows : Option (List WindowDict) := none
  deriving DecidableEq

/-- `WorkspaceTestClient.window_exists` (lines 423-443) as a function of
the `query_ui_state()` outcome: any exception gives False; otherwise True
exactly when some window's `title` or `windowTitle` equals `title`. -/
def window_exists (q : Option UIStateW) (title : String) : Bool :=
  match q with
  | none => false
  | some state =>
    (state.windows.getD []).any (fun w =>
      w.title == some title || w.windowTitle == some title)

/-- A UI element / window dictionary as walked by `text_visible` and
`count_elements_by_class`: its `text` and `class` values and the values
under the three child key names. -/
inductive Node where
  | mk (text : Option String) (cls : Option String)
      (children : List Node) (contentView : List Node) (views : List Node)

/-- The `text` field of a node. -/
def Node.text : Node → Option String
  | .mk t _ _ _ _ => t

/-- Whether a node's own `text` field matches the precomputed search text
(lines 462-468 of `search_in_tree`): the element text is lowercased unless
the search is case sensitive, and match is substring containment. -/
def nodeTextMatch (search : String) (case_sensitive : Bool) : Node → Bool
  | .mk text _ _ _ _ =>
    match text with
    | some s => strContainsSub (if case_sensitive then s else strLower s) search
    | none => false

mutual

/-- `search_in_tree` of `text_visible` (lines 460-480): check the node's
own text, then recurse into the `children` value only. -/
def search_in_tree (search : String) (case_sensitive : Bool) : Node → Bool
  | .mk text cls children contentView views =>
    nodeTextMatch search case_sensitive (.mk text cls children contentView views)
    || search_in_list search case_sensitive children

/-- `search_in_tree` on a list value (lines 475-478). -/
def search_in_list (search : String) (case_sensitive : Bool) : List Node → Bool
  | [] => false
  | n :: rest =>
    search_in_tree search case_sensitive n || search_in_list search case_sensitive rest

end

/-- `WorkspaceTestClient.text_visible` (lines 445-489) as a function of the
`query_ui_state()` outcome: on an exception False, otherwise the search
text is `text` lowercased unless case sensitive (line 458) and each window
is searched with `search_in_tree`. -/
def text_visible (q : Option (List Node)) (text : String)
    (case_sensitive : Bool) : Bool :=
  match q with
  | none => false
  | some windows =>
    search_in_list (if case_sensitive then text else strLower text) case_sensitive windows

mutual

/-- `count_class` of `count_elements_by_class` (lines 824-834): count the
node itself, then recurse into all three of `children`, `contentView` and
`views`. -/
def count_class (class_name : String) : Node → Nat
  | .mk _ cls children contentView views =>
    (if cls == some class_name then 1 else 0)
    + count_class_list class_name children
    + count_class_list class_name contentView
    + count_class_list class_name views

/-- `count_class` on a list value (lines 832-834). -/
def count_class_list (class_name : String) : List Node → Nat
  | [] => 0
  | n :: rest => count_class class_name n + count_class_list class_name rest

end

/-- `WorkspaceTestClient.count_elements_by_class` (lines 812-843) as a
function of the `query_ui_state()` outcome: on an exception the count
stays 0, otherwise every window is counted. -/
def count_elements_by_class (q : Option (List Node)) (class_name : String) : Nat :=
  match q with
  | none => 0
  | some windows => count_class_list class_name windows

mutual

/-- The nodes reachable from a node by following only `children` edges
(the node itself included) - the part of the tree `search_in_tree`
can see. -/
def childDescendants : Node → List Node
  | .mk text cls children contentView views =>
    .mk text cls children contentView views :: childDescendantsList children

/-- `childDescendants` over a list of nodes. -/
def childDescendantsList : List Node → List Node
  | [] => []
  | n :: rest => childDescendants n ++ childDescendantsList rest

end

end Uitest

/-! ## Concrete inputs used by the theorems below -/

namespace ModalHandlerM

/-- A small (300 by 200) focused Workspace window whose name carries no
alert keyword: a GNUstep-class dialog named "Sizes". -/
def exC3W : WindowInfo :=
  { window_id := "0x100", name := "Sizes", x := 100, y := 100,
    width := 300, height := 200, wm_class := "GNUstep" }

/-- The 300 by 200 window named "Delete Confirmation" of the claim. -/
def exDeleteConfirm : WindowInfo :=
  { window_id := "0x201", name := "Delete Confirmation", x := 0, y := 0,
    width := 300, height := 200, wm_class := "" }

/-- The 1200 by 800 window named "Finder" of the claim. -/
def exFinderBig : WindowInfo :=
  { window_id := "0x202", name := "Finder", x := 0, y := 0,
    width := 1200, height := 800, wm_class := "" }

/-- A Workspace window whose geometry query failed (width reported 0). -/
def exC4W : WindowInfo :=
  { window_id := "0x203", name := "Sizes", x := 0, y := 0,
    width := 0, height := 300, wm_class := "GNUstep" }

/-- A persistent focus stealer: an alert-named GNUstep window. -/
def stealW : WindowInfo :=
  { window_id := "0x300", name := "Error", x := 10, y := 10,
    width := 300, height := 150, wm_class := "GNUstep" }

/-- An environment in which the focus stealer `stealW` survives every
dismissal strategy: the focused window never changes across the Escape
presses, and it is still focused (and still a stealer) after the button
click and after the close key. -/
def exC2Env : DismissEnv :=
  { escInitial := some stealW, escAfter := fun _ => some stealW,
    clickFocused := some stealW, afterClickFocused := some stealW }

end ModalHandlerM

namespace Uitest

/-- A concrete stand-in for `json.loads` used by witnesses: parses the
two-character document of a left and a right brace to the number 7. -/
def exParse : String → Option Nat :=
  fun s => if s == "\x7b\x7d" then some 7 else none

/-- The items of the concrete File menu used by the C7 witness. -/
def exFileItems : List MenuItem :=
  [{ title := some "New Folder", enabled := some false },
   { title := some "Find", enabled := some true }]

/-- A concrete File menu: "New Folder" disabled, "Find" enabled. -/
def exFileMenu : Menu :=
  { title := some "File", enabled := some true, items := some exFileItems }

/-- A concrete parsed `list-menus` state holding only the File menu. -/
def exMenuState : MenuState := { menus := some [exFileMenu] }

/-- A button element whose text "Hello" would match a text search. -/
def exC10Btn : Node := .mk (some "Hello") (some "NSButton") [] [] []

/-- A window list in which the only text-bearing element hangs under the
`contentView` key, with the `children` key absent - the shape real
`WindowSnapshot`s use. -/
def exC10Windows : List Node := [.mk none (some "NSWindow") [] [exC10Btn] []]

end Uitest

/-! ## Theorems -/

namespace Uitest

/-- Claim C1 (code bug): for every Command Proxy invocation whose spawned
process's stderr contains the sentinel "Cannot contact Workspace", the
error that escapes `_run_command` is the generic `CommandFailedError`, not
`WorkspaceNotRunningError`: the sentinel-triggered raise at uitest.py:156
sits inside the `try:` suite, so the `except Exception` handler at line 165
catches it and rewraps it. No input whatsoever makes
`WorkspaceNotRunningError` escape, contradicting the claim, the spec, and
the function's own docstring (lines 140-142). -/
theorem run_command_wraps_not_running :
    (∀ o : SpawnOutcome, isWorkspaceNotRunningErr (run_command o) = false)
    ∧ run_command (.completed "" "uitest: Cannot contact Workspace" 1)
        = .error (.commandFailed ("Failed to run uitest: " ++ workspaceNotRunningMessage)) := by
  constructor
  · intro o
    cases o with
    | timeout => rfl
    | spawnError m => rfl
    | completed out err code =>
      simp only [run_command, run_command_try]
      split <;> rfl
  · rfl

end Uitest

namespace ModalHandlerM

/-- Claim C2, amended: in "auto" mode `dismiss_focus_stealer` tries the
strategies in the fixed order (Escape up to 2 attempts checking for a
focused-window-id change, then the right-edge button click with a
`has_focus_stealer` re-check, then the window-close key) and always
terminates; but it returns true for EVERY environment - the final
`close_window` strategy reports success unconditionally once the close key
is sent, so the report-failure branch is unreachable and the call never
returns false, even when nothing was dismissed. -/
theorem dismiss_focus_stealer_auto_always_true :
    ∀ env : DismissEnv, dismiss_focus_stealer_auto env = true := by
  intro env
  simp [dismiss_focus_stealer_auto, close_window]

/-- Claim C2, counterexample: in the environment `exC2Env` the focus
stealer survives everything - the Escape presses never change the focused
window id, the stealer is still focused after the button click
(`has_focus_stealer` still true), and the close key changes nothing - yet
`dismiss_focus_stealer("auto")` returns true, not the false the claim
requires when all three strategies fail to dismiss. -/
theorem dismiss_focus_stealer_auto_cex :
    dismiss_with_escape exC2Env.escInitial exC2Env.escAfter 2 = false
    ∧ click_button_in_dialog exC2Env.clickFocused = true
    ∧ has_focus_stealer none exC2Env.afterClickFocused = true
    ∧ exC2Env.afterClickFocused = some stealW
    ∧ dismiss_focus_stealer_auto exC2Env = true :=
  ⟨rfl, rfl, rfl, rfl, rfl⟩

/-- Claim C3, amended: when a non-empty `expectedTitle` is supplied,
`has_focus_stealer` returns false if the focused window's lowercased name
contains the lowercased `expectedTitle`, and otherwise returns true exactly
when the focused window is not a Workspace window or is one that looks
like a modal under the alert-keyword or the small-dialog heuristic; when
`expectedTitle` is omitted - or supplied as the empty string, which the
source's truthiness test at modal_handler.py:224 treats as omitted - the
small-dialog heuristic is NOT consulted: the result is true exactly when
the focused window is not a Workspace window or satisfies the
alert-keyword heuristic alone. When no focused window can be determined
the result is false. -/
theorem has_focus_stealer_characterization :
    ∀ (w : WindowInfo) (e : String),
      (e == "") = false →
        has_focus_stealer none (some w) = (!(is_workspace_window w) || w.looks_like_alert)
        ∧ has_focus_stealer (some e) (some w) =
            (!(strContainsSub (strLower w.name) (strLower e))
              && (!(is_workspace_window w) || w.looks_like_alert || w.is_small_dialog))
        ∧ has_focus_stealer (some "") (some w)
            = (!(is_workspace_window w) || w.looks_like_alert)
        ∧ has_focus_stealer none none = false
        ∧ has_focus_stealer (some e) none = false := by
  intro w e he
  refine ⟨?_, ?_, ?_, rfl, rfl⟩
  · cases hw : is_workspace_window w <;> simp [has_focus_stealer, pyTruthy, hw]
  · cases hm : strContainsSub (strLower w.name) (strLower e) <;>
      cases hw : is_workspace_window w <;>
        simp [has_focus_stealer, pyTruthy, he, hm, hw]
  · cases hw : is_workspace_window w <;> simp [has_focus_stealer, pyTruthy, hw]

/-- Witness for the amended claim C3 at the concrete window `exC3W` and
the non-empty expected title "Workspace". -/
theorem has_focus_stealer_characterization_witness :
    (("Workspace" == "") = false)
    ∧ (has_focus_stealer none (some exC3W)
          = (!(is_workspace_window exC3W) || exC3W.looks_like_alert)
      ∧ has_focus_stealer (some "Workspace") (some exC3W) =
          (!(strContainsSub (strLower exC3W.name) (strLower "Workspace"))
            && (!(is_workspace_window exC3W) || exC3W.looks_like_alert || exC3W.is_small_dialog))
      ∧ has_focus_stealer (some "") (some exC3W)
          = (!(is_workspace_window exC3W) || exC3W.looks_like_alert)
      ∧ has_focus_stealer none none = false
      ∧ has_focus_stealer (some "Workspace") none = false) :=
  ⟨by decide, has_focus_stealer_characterization exC3W "Workspace" (by decide)⟩

/-- Claim C3, counterexample: with no `expectedTitle`, the focused small
(300 by 200) non-alert Workspace dialog `exC3W` is NOT reported as a focus
stealer - `has_focus_stealer()` returns false, where the claim says a
window looking like a modal under the small-dialog heuristic yields
true. -/
theorem has_focus_stealer_small_dialog_cex :
    is_workspace_window exC3W = true
    ∧ exC3W.is_small_dialog = true
    ∧ exC3W.looks_like_alert = false
    ∧ has_focus_stealer none (some exC3W) = false :=
  ⟨rfl, rfl, rfl, rfl⟩

/-- Claim C4, amended: `detect_modal_dialog` returns the focused window
exactly when it looks like an alert (name or class contains one of the
fixed keywords), or when it is a Workspace window with 0 < width < 500 and
height < 400 (the code's small-dialog predicate additionally requires a
positive width) whose name contains none of Inspector, Finder, Preferences,
Run; otherwise it returns none. In particular the focused 300 by 200
window named "Delete Confirmation" is returned and the focused 1200 by 800
window named "Finder" yields none. -/
theorem detect_modal_dialog_characterization :
    ∀ w : WindowInfo,
      (detect_modal_dialog (some w) = some w ↔
        (w.looks_like_alert = true
          ∨ (w.is_small_dialog = true ∧ is_workspace_window w = true
              ∧ (known_panels.any (fun p => strContainsSub w.name p)) = false)))
      ∧ detect_modal_dialog none = none
      ∧ detect_modal_dialog (some exDeleteConfirm) = some exDeleteConfirm
      ∧ detect_modal_dialog (some exFinderBig) = none := by
  intro w
  refine ⟨?_, rfl, rfl, rfl⟩
  cases h1 : w.looks_like_alert <;>
    cases h2 : w.is_small_dialog <;>
      cases h3 : is_workspace_window w <;>
        cases h4 : known_panels.any (fun p => strContainsSub w.name p) <;>
          simp [detect_modal_dialog, h1, h2, h3, h4]

/-- Claim C4, counterexample: the GNUstep window `exC4W` whose geometry
query failed (width recorded as 0) satisfies the claim's small-dialog
predicate (width < 500 and height < 400), is a Workspace window, is no
alert, and its name contains no known panel name - so the claim says
`detect_modal_dialog` returns it - yet the code returns none, because
`is_small_dialog` additionally requires width > 0. -/
theorem detect_modal_dialog_zero_width_cex :
    exC4W.width < 500 ∧ exC4W.height < 400
    ∧ is_workspace_window exC4W = true
    ∧ exC4W.looks_like_alert = false
    ∧ (known_panels.any (fun p => strContainsSub exC4W.name p)) = false
    ∧ detect_modal_dialog (some exC4W) = none :=
  ⟨by decide, by decide, rfl, rfl, rfl, rfl⟩

end ModalHandlerM

namespace UserInputM

/-- Claim C5: for every starting mouse position, every target, and every
outcome of the random control-point perturbation, `move_mouse_smoothly`
terminates (its emitted move list is finite, at most one move beyond the
step count) with the final emitted position exactly the target - the last
xdotool `mousemove` is `(target_x, target_y)` in both the short-distance
branch and the bezier branch - and the distance-dependent step count lies
between 5 and 30. -/
theorem move_mouse_smoothly_final_target :
    ∀ (cx cy tx ty : Int) (controlX controlY : ℚ),
      (move_mouse_smoothly_moves cx cy tx ty controlX controlY).getLast? = some (tx, ty)
      ∧ 5 ≤ smoothSteps cx cy tx ty ∧ smoothSteps cx cy tx ty ≤ 30
      ∧ (move_mouse_smoothly_moves cx cy tx ty controlX controlY).length
          ≤ smoothSteps cx cy tx ty + 1 := by
  intro cx cy tx ty controlX controlY
  have h5 : 5 ≤ smoothSteps cx cy tx ty := Nat.le_max_left _ _
  have h30 : smoothSteps cx cy tx ty ≤ 30 :=
    Nat.max_le.mpr ⟨by norm_num, Nat.min_le_left _ _⟩
  refine ⟨?_, h5, h30, ?_⟩
  · unfold move_mouse_smoothly_moves
    dsimp only
    split
    · rfl
    · exact List.getLast?_concat _
  · unfold move_mouse_smoothly_moves
    dsimp only
    split
    · simp
    · simp

end UserInputM

namespace Uitest

/-- A preamble whose lines all fail the trimmed-starts-with-brace test
leaves `json_payload` unchanged. -/
theorem json_payload_append (p ls : List String)
    (hp : p.all (fun l => !(pyStartsWith (pyStrip l) "\x7b")) = true) :
    json_payload (p ++ ls) = json_payload ls := by
  induction p with
  | nil => rfl
  | cons l rest ih =>
    simp only [List.all_cons, Bool.and_eq_true, Bool.not_eq_true'] at hp
    simp [json_payload, hp.1, ih hp.2]

/-- `json_payload` finds nothing exactly when no line, trimmed, starts
with a left brace. -/
theorem json_payload_none_iff (ls : List String) :
    json_payload ls = none
      ↔ ls.all (fun l => !(pyStartsWith (pyStrip l) "\x7b")) = true := by
  induction ls with
  | nil => simp [json_payload]
  | cons l rest ih =>
    cases h : pyStartsWith (pyStrip l) "\x7b" <;> simp [json_payload, h, ih]

/-- Claim C6: `_extract_json` locates the first line whose stripped content
starts with a left brace and parses everything from that line to the end
(the `json_payload` suffix joined with newlines). Prepending any non-JSON
preamble leaves the result unchanged; the result is `NoJsonFound` exactly
when no line qualifies; a parsed object is returned unchanged exactly when
the payload parses to it; `MalformedJson` exactly when the payload exists
but fails to parse; and the string-level entry splits the raw output on
newlines. -/
theorem extract_json_spec :
    ∀ {α : Type} (parse : String → Option α) (p lines : List String) (j : α) (raw : String),
      p.all (fun l => !(pyStartsWith (pyStrip l) "\x7b")) = true →
        extract_json_lines parse (p ++ lines) = extract_json_lines parse lines
        ∧ (extract_json_lines parse lines = .error .noJsonFound
            ↔ lines.all (fun l => !(pyStartsWith (pyStrip l) "\x7b")) = true)
        ∧ (extract_json_lines parse lines = .ok j
            ↔ ∃ suf, json_payload lines = some suf
                ∧ parse (String.intercalate "\n" suf) = some j)
        ∧ (extract_json_lines parse lines = .error .malformedJson
            ↔ ∃ suf, json_payload lines = some suf
                ∧ parse (String.intercalate "\n" suf) = none)
        ∧ extract_json parse raw = extract_json_lines parse (pySplitLines raw) := by
  intro α parse p lines j raw hp
  refine ⟨?_, ?_, ?_, ?_, rfl⟩
  · unfold extract_json_lines
    rw [json_payload_append p lines hp]
  · unfold extract_json_lines
    cases hjp : json_payload lines with
    | none => simpa [hjp] using (json_payload_none_iff lines).mp hjp
    | some suf =>
      have hne : ¬(json_payload lines = none) := by simp [hjp]
      rw [json_payload_none_iff] at hne
      cases hparse : parse (String.intercalate "\n" suf) <;> simp [hjp, hparse, hne]
  · unfold extract_json_lines
    cases hjp : json_payload lines with
    | none => simp [hjp]
    | some suf =>
      cases hparse : parse (String.intercalate "\n" suf) <;>
        simp [hjp, hparse, eq_comm]
  · unfold extract_json_lines
    cases hjp : json_payload lines with
    | none => simp [hjp]
    | some suf =>
      cases hparse : parse (String.intercalate "\n" suf) <;> simp [hjp, hparse]

/-- Witness for claim C6 at a concrete preamble, payload and parser. -/
theorem extract_json_spec_witness :
    (["pre"].all (fun l => !(pyStartsWith (pyStrip l) "\x7b")) = true)
    ∧ (extract_json_lines exParse (["pre"] ++ ["\x7b\x7d"]) = extract_json_lines exParse ["\x7b\x7d"]
      ∧ (extract_json_lines exParse ["\x7b\x7d"] = .error .noJsonFound
          ↔ (["\x7b\x7d"].all (fun l => !(pyStartsWith (pyStrip l) "\x7b"))) = true)
      ∧ (extract_json_lines exParse ["\x7b\x7d"] = .ok 7
          ↔ ∃ suf, json_payload ["\x7b\x7d"] = some suf
              ∧ exParse (String.intercalate "\n" suf) = some 7)
      ∧ (extract_json_lines exParse ["\x7b\x7d"] = .error .malformedJson
          ↔ ∃ suf, json_payload ["\x7b\x7d"] = some suf
              ∧ exParse (String.intercalate "\n" suf) = none)
      ∧ extract_json exParse "pre\n\x7b\x7d" = extract_json_lines exParse (pySplitLines "pre\n\x7b\x7d")) :=
  ⟨by decide, extract_json_spec exParse ["pre"] ["\x7b\x7d"] 7 "pre\n\x7b\x7d" (by decide)⟩

/-- Claim C7: given a menu state in which a menu titled `m` exists (so the
first matching menu is found), `is_menu_item_enabled m i` returns the
`enabled` flag (default False) of the first item of that menu's item list
titled `i` - never raising for a present item, in particular returning
false for `enabled: false` and true for `enabled: true` - and raises the
"Menu item not found" `UITestException` (the spec's `NotFound`) exactly
when the item lookup finds nothing, which happens exactly when no item of
the list has title `i`. -/
theorem is_menu_item_enabled_spec :
    ∀ (state : MenuState) (m i : String) (menu : Menu),
      (state.menus.getD []).find? (fun mn => mn.title == some m) = some menu →
        get_menu_items state m = .ok (menu.items.getD [])
        ∧ is_menu_item_enabled state m i =
            (match (menu.items.getD []).find? (fun it => it.title == some i) with
             | some it => .ok (it.enabled.getD false)
             | none => .error (.uitestError ("Menu item not found: " ++ m ++ " > " ++ i)))
        ∧ ((menu.items.getD []).find? (fun it => it.title == some i) = none
            ↔ (menu.items.getD []).all (fun it => !(it.title == some i)) = true) := by
  intro state m i menu hfind
  have hg : get_menu_items state m = .ok (menu.items.getD []) := by
    unfold get_menu_items
    rw [hfind]
  refine ⟨hg, ?_, ?_⟩
  · cases hf : (menu.items.getD []).find? (fun it => it.title == some i) <;>
      simp [is_menu_item_enabled, hg, hf]
  · rw [List.find?_eq_none, List.all_eq_true]
    constructor
    · intro h it hit
      simpa using h it hit
    · intro h it hit
      simpa using h it hit

/-- Witness for claim C7 at the concrete File menu: "New Folder" is present
with `enabled: false`, and the call returns that flag. -/
theorem is_menu_item_enabled_spec_witness :
    ((exMenuState.menus.getD []).find? (fun mn => mn.title == some "File") = some exFileMenu)
    ∧ (get_menu_items exMenuState "File" = .ok (exFileMenu.items.getD [])
      ∧ is_menu_item_enabled exMenuState "File" "New Folder" =
          (match (exFileMenu.items.getD []).find? (fun it => it.title == some "New Folder") with
           | some it => .ok (it.enabled.getD false)
           | none => .error (.uitestError ("Menu item not found: " ++ "File" ++ " > " ++ "New Folder")))
      ∧ ((exFileMenu.items.getD []).find? (fun it => it.title == some "New Folder") = none
          ↔ (exFileMenu.items.getD []).all (fun it => !(it.title == some "New Folder")) = true)) :=
  ⟨by decide, is_menu_item_enabled_spec exMenuState "File" "New Folder" exFileMenu (by decide)⟩

/-- The results list is the executed tests mapped through pass/fail. -/
theorem run_tests_results_eq (stop : Bool) (ts : List TestOutcome) :
    run_tests_results stop ts = (executedTests stop ts).map passes := by
  induction ts with
  | nil => rfl
  | cons o rest ih =>
    cases o <;> cases stop <;> simp [run_tests_results, executedTests, passes, ih]

/-- Replacing any failing outcome by a returned `False` leaves the results
list unchanged. -/
theorem run_tests_results_outcome_irrel (stop : Bool) (pre suf : List TestOutcome)
    (o : TestOutcome) (ho : passes o = false) :
    run_tests_results stop (pre ++ o :: suf) = run_tests_results stop (pre ++ .retFalse :: suf) := by
  induction pre with
  | nil => cases o <;> simp_all [run_tests_results, passes]
  | cons q rest ih => cases q <;> simp [run_tests_results, ih]

/-- Claim C8: `run_tests` returns exit status 0 exactly when every
executed test passed - also when `stop_on_failure` halts the sequence
early, since the halt itself records the failure - and 1 in every other
case; an outcome counts as failed exactly when the callable returned the
value `False` itself or raised (`passes`), and a returned `False`, a raised
`AssertionFailedError` and any other raised error are interchangeable
without changing the exit status. -/
theorem run_tests_exit_status_spec :
    ∀ (stop : Bool) (ts : List TestOutcome),
      (run_tests stop ts = 0 ↔ (executedTests stop ts).all passes = true)
      ∧ (run_tests stop ts = 0 ∨ run_tests stop ts = 1)
      ∧ (∀ pre suf : List TestOutcome,
          run_tests stop (pre ++ .retFalse :: suf) = run_tests stop (pre ++ .otherExn :: suf)
          ∧ run_tests stop (pre ++ .retFalse :: suf) = run_tests stop (pre ++ .assertExn :: suf)) := by
  intro stop ts
  refine ⟨?_, ?_, ?_⟩
  · have hmap : ((executedTests stop ts).map passes).all (fun b => b)
        = (executedTests stop ts).all passes := by
      induction executedTests stop ts with
      | nil => rfl
      | cons x l ih => simp [List.all_cons, ih]
    unfold run_tests
    rw [run_tests_results_eq, hmap]
    cases h : (executedTests stop ts).all passes <;> simp [h]
  · unfold run_tests
    split <;> simp
  · intro pre suf
    constructor
    · unfold run_tests
      rw [run_tests_results_outcome_irrel stop pre suf .otherExn rfl]
    · unfold run_tests
      rw [run_tests_results_outcome_irrel stop pre suf .assertExn rfl]

/-- Claim C9: `window_exists` returns false whenever the underlying query
or parse raised (the lower-layer failure is swallowed, never propagated),
and on a successful snapshot returns true exactly when some window's
`title` key or alternate `windowTitle` key equals the sought title
exactly - so every title not present in the snapshot yields false. -/
theorem window_exists_spec :
    ∀ (t : String) (s : UIStateW),
      window_exists none t = false
      ∧ (window_exists (some s) t = true
          ↔ ∃ w ∈ s.windows.getD [], (w.title = some t ∨ w.windowTitle = some t)) := by
  intro t s
  refine ⟨rfl, ?_⟩
  unfold window_exists
  simp [List.any_eq_true]

/-- Flattening child-only descendant lists. -/
theorem childDescendantsList_eq (l : List Node) :
    childDescendantsList l = l.flatMap childDescendants := by
  induction l with
  | nil => rfl
  | cons n rest ih => simp [childDescendantsList, ih]

mutual

/-- `search_in_tree` sees exactly the nodes reachable through `children`
edges: it succeeds on a node exactly when some child-reachable descendant's
own text matches. -/
theorem search_in_tree_eq (search : String) (cs : Bool) :
    ∀ n, search_in_tree search cs n = (childDescendants n).any (nodeTextMatch search cs)
  | .mk text cls children cv vs => by
    rw [search_in_tree, childDescendants]
    simp [List.any_cons, search_in_list_eq search cs children]

/-- List version of `search_in_tree_eq`. -/
theorem search_in_list_eq (search : String) (cs : Bool) :
    ∀ l, search_in_list search cs l = (childDescendantsList l).any (nodeTextMatch search cs)
  | [] => by simp [search_in_list, childDescendantsList]
  | n :: rest => by
    rw [search_in_list, childDescendantsList]
    simp [List.any_append, search_in_tree_eq search cs n, search_in_list_eq search cs rest]

end

/-- Claim C10: `text_visible` recurses only through the `children` key -
whenever every node whose text matches the query is reachable from its
window only through `contentView` or `views` (that is, no child-reachable
node matches), `text_visible` returns false. At the concrete state
`exC10Windows`, whose only text-bearing element hangs under `contentView`,
`text_visible "Hello"` is false even though `count_elements_by_class`
applied to the same state does descend through `contentView` and counts
that element, whose text does match the search. -/
theorem text_visible_children_only :
    (∀ (q : String) (cs : Bool) (windows : List Node),
      windows.all (fun w => (childDescendants w).all
          (fun d => !(nodeTextMatch (if cs then q else strLower q) cs d))) = true →
        text_visible (some windows) q cs = false)
    ∧ text_visible (some exC10Windows) "Hello" false = false
    ∧ count_elements_by_class (some exC10Windows) "NSButton" = 1
    ∧ nodeTextMatch (strLower "Hello") false exC10Btn = true
    ∧ text_visible none "Hello" false = false := by
  refine ⟨?_, by decide, by decide, by decide, rfl⟩
  intro q cs windows hall
  show search_in_list (if cs then q else strLower q) cs windows = false
  rw [search_in_list_eq]
  have hnone : ∀ d ∈ childDescendantsList windows,
      nodeTextMatch (if cs then q else strLower q) cs d = false := by
    intro d hd
    rw [childDescendantsList_eq] at hd
    obtain ⟨w, hw, hdw⟩ := List.mem_flatMap.mp hd
    have h1 := (List.all_eq_true.mp hall) w hw
    have h2 := (List.all_eq_true.mp h1) d hdw
    simpa using h2
  cases h : (childDescendantsList windows).any (nodeTextMatch (if cs then q else strLower q) cs)
  · rfl
  · obtain ⟨d, hd, hmatch⟩ := List.any_eq_true.mp h
    rw [hnone d hd] at hmatch
    cases hmatch

/-- Witness for claim C10 at the concrete state: no child-reachable node
matches, and `text_visible` is false. -/
theorem text_visible_children_only_witness :
    (exC10Windows.all (fun w => (childDescendants w).all
        (fun d => !(nodeTextMatch (if (false : Bool) then "Hello" else strLower "Hello") false d))) = true)
    ∧ text_visible (some exC10Windows) "Hello" false = false :=
  ⟨by decide, text_visible_children_only.1 "Hello" false exC10Windows (by decide)⟩

end Uitest

end GWorkspace
